import Mathlib

/-!
# Verification of the vote69 election reconciliation pipeline

Shallow embedding of the data-reconciliation and statistics core of the
`vote69-ireadelection` repository (the `lib/data.ts` lookup builders, the
`diff_stats_panel` regional aggregator, the `party_analysis_client` z-score
test and the `ballot_forensics_client` composite anomaly score), together
with theorems settling the specification claims about them.

JavaScript numbers are modelled as rationals (`ℚ`); runtime-optional fields
(`x ?? 0` / `x || 0` defaulting in the source) are modelled as `Option ℚ`
read through `Option.getD`.  A JavaScript `Record<string, T>` built by
`result[key] = value` assignments is modelled as the list of emitted
`(key, value)` pairs, and a JavaScript `Map` built by `set` (where the
last `set` for a key wins) as a function `String → Option _` built by a
left fold.  All functions are total: the "never throws" parts of the
claims hold by construction of the embedding.
-/

namespace Vote69

/-- Raw party-overview record (`info_party_overview.json`); the source
converts the textual `id` with `Number(p.id)`, modelled here by carrying
the numeric id directly. -/
structure RawPartyOverview where
  id : Int
  name : String
  color : String

/-- Raw MP-candidate record (`info_mp_candidate.json`). -/
structure RawMpCandidate where
  mp_app_id : String
  mp_app_name : String

/-- Candidate result inside a constituency of `stats_cons.json`. -/
structure RawCandidateResult where
  mp_app_id : String
  mp_app_vote : ℚ
  mp_app_vote_percent : ℚ
  mp_app_rank : Int
  party_id : Int

/-- Per-party result inside a constituency of `stats_cons.json`. -/
structure RawConsPartyResult where
  party_id : Int
  party_list_vote : ℚ
  party_list_vote_percent : ℚ
deriving DecidableEq

/-- One constituency of `stats_cons.json`.  Numeric fields that the source
reads through `?? 0` (they may be absent in the live feed) are `Option ℚ`. -/
structure RawStatsConstituency where
  cons_id : String
  turn_out : Option ℚ
  percent_turn_out : Option ℚ
  valid_votes : Option ℚ
  invalid_votes : Option ℚ
  blank_votes : Option ℚ
  party_list_turn_out : Option ℚ
  party_list_percent_turn_out : Option ℚ
  party_list_valid_votes : Option ℚ
  party_list_invalid_votes : Option ℚ
  party_list_blank_votes : Option ℚ
  counted_vote_stations : Option ℚ
  percent_count : Option ℚ
  pause_report : Option Bool
  candidates : List RawCandidateResult
  result_party : Option (List RawConsPartyResult)

/-- Province entry of `stats_cons.json`. -/
structure RawStatsProvince where
  prov_id : String
  constituencies : List RawStatsConstituency

/-- Top-level `stats_cons.json` response (the fields the pipeline reads). -/
structure RawStatsCons where
  result_province : List RawStatsProvince

/-- One referendum question's result block (`stats_referendum.json`). -/
structure RawReferendumResult where
  percent_yes : ℚ
  percent_no : ℚ
  percent_abstained : ℚ

/-- Constituency entry of `stats_referendum.json`; `referendum_results` is a
JSON object keyed by question id, modelled as its key/value pairs in
insertion order (the source takes `Object.keys(...)[0]`). -/
structure RawReferendumConstituency where
  cons_id : String
  referendum_results : List (String × RawReferendumResult)

/-- Province entry of `stats_referendum.json`. -/
structure RawReferendumProvince where
  prov_id : String
  constituencies : List RawReferendumConstituency

/-- Top-level `stats_referendum.json` response. -/
structure RawStatsReferendum where
  result_province : List RawReferendumProvince

/-- Raw ECT registry record (`ConstituencyRecord` in the source types). -/
structure ConstituencyRecord where
  cons_id : String
  cons_no : Int
  prov_id : String
  zone : List String
  total_vote_stations : Option ℚ
  registered_vote : Option ℚ

/-- Resolved constituency data attached to a matched boundary feature
(`ConstituencyData` in the source types). -/
structure ConstituencyData where
  cons_id : String
  cons_no : Int
  prov_id : String
  prov_name_th : String
  prov_name_en : String
  zone : List String
  vote_stations : ℚ
  registered_voters : ℚ

/-- Resolved winner data (`ConsWinnerData`). -/
structure ConsWinnerData where
  candidate_name : String
  party_name : String
  party_color : String
  vote_count : ℚ
  vote_percent : ℚ
  turn_out : ℚ
  party_list_vote_percent : ℚ

/-- One resolved top-party entry (`PartyListResultResolved`). -/
structure PartyListResultResolved where
  party_name : String
  party_color : String
  votes : ℚ
  vote_percent : ℚ
deriving DecidableEq

/-- Resolved party-list data (`ConsPartyListData`).  The source stores
`cons.party_list_turn_out` without a default, so the field is optional. -/
structure ConsPartyListData where
  turn_out : Option ℚ
  top_parties : List PartyListResultResolved
deriving DecidableEq

/-- Resolved referendum data (`ConsReferendumData`). -/
structure ConsReferendumData where
  percent_yes : ℚ
  percent_no : ℚ
  percent_abstained : ℚ

/-- Resolved turnout-diff data (`ConsDiffData`). -/
structure ConsDiffData where
  mp_turn_out : ℚ
  mp_percent_turn_out : ℚ
  party_list_turn_out : ℚ
  party_list_percent_turn_out : ℚ
  diff_count : ℚ
  diff_percent : ℚ

/-- Resolved ballot-forensics data (`ConsBallotForensicsData`). -/
structure ConsBallotForensicsData where
  mp_invalid_votes : ℚ
  mp_invalid_pct : ℚ
  pl_invalid_votes : ℚ
  pl_invalid_pct : ℚ
  invalid_diff : ℚ
  mp_blank_votes : ℚ
  mp_blank_pct : ℚ
  pl_blank_votes : ℚ
  pl_blank_pct : ℚ
  blank_diff : ℚ
  mp_valid_votes : ℚ
  mp_valid_pct : ℚ
  pl_valid_votes : ℚ
  pl_valid_pct : ℚ
  valid_diff : ℚ
  counted_vote_stations : ℚ
  total_vote_stations : ℚ
  percent_count : ℚ
  pause_report : Bool
  registered_voters : ℚ
  mp_turnout_of_registered : ℚ

-- ── Lookup builders (lib/data.ts) ─────────────────────────────────────────

/-- The `cons_id.endsWith("_0")` summary-row test shared by all four join
loops, computed on the character list (so that concrete instances
evaluate). -/
def is_summary_id (s : String) : Bool :=
  "_0".data.isSuffixOf s.data

/-- Candidate-name sub-lookup of `build_winner_lookup`: a JS `Map` built by
`set` in iteration order, so the last record with a given id wins. -/
def candidate_map (candidates : List RawMpCandidate) : String → Option String :=
  candidates.foldl
    (fun m c => fun k => if k = c.mp_app_id then some c.mp_app_name else m k)
    (fun _ => none)

/-- Party sub-lookup (`party_map` in the source): party id to name/color. -/
def party_map (parties : List RawPartyOverview) :
    Int → Option (String × String) :=
  parties.foldl
    (fun m p => fun k => if k = p.id then some (p.name, p.color) else m k)
    (fun _ => none)

/-- Winner record produced for one non-summary constituency that has a
rank-1 candidate (`build_winner_lookup` loop body). -/
def winner_record (cmap : String → Option String)
    (pmap : Int → Option (String × String))
    (cons : RawStatsConstituency) (winner : RawCandidateResult) :
    ConsWinnerData :=
  let cand_name := (cmap winner.mp_app_id).getD "ไม่ทราบชื่อ"
  let party := (pmap winner.party_id).getD ("ไม่ทราบพรรค", "#666")
  let party_result :=
    (cons.result_party.getD []).find? (fun rp => rp.party_id = winner.party_id)
  { candidate_name := cand_name
    party_name := party.1
    party_color := party.2
    vote_count := winner.mp_app_vote
    vote_percent := winner.mp_app_vote_percent
    turn_out := cons.turn_out.getD 0
    party_list_vote_percent :=
      (party_result.map (·.party_list_vote_percent)).getD 0 }

/-- `build_winner_lookup`: winner per non-summary constituency, keyed by
`cons_id` (record modelled as the list of emitted key/value pairs). -/
def build_winner_lookup (stats : RawStatsCons)
    (candidates : List RawMpCandidate) (parties : List RawPartyOverview) :
    List (String × ConsWinnerData) :=
  let cmap := candidate_map candidates
  let pmap := party_map parties
  stats.result_province.flatMap fun prov =>
    prov.constituencies.filterMap fun cons =>
      if is_summary_id cons.cons_id then none
      else
        (cons.candidates.find? (fun c => c.mp_app_rank = 1)).map fun winner =>
          (cons.cons_id, winner_record cmap pmap cons winner)

/-- The descending party-list-vote ordering used by the party-list join
(`(a, b) => b.party_list_vote - a.party_list_vote`). -/
def pl_vote_ge (a b : RawConsPartyResult) : Prop :=
  b.party_list_vote ≤ a.party_list_vote

instance : DecidableRel pl_vote_ge := fun a b =>
  inferInstanceAs (Decidable (b.party_list_vote ≤ a.party_list_vote))

instance : IsTotal RawConsPartyResult pl_vote_ge :=
  ⟨fun a b => (le_total b.party_list_vote a.party_list_vote)⟩

instance : IsTrans RawConsPartyResult pl_vote_ge :=
  ⟨fun _ _ _ hab hbc => le_trans hbc hab⟩

/-- The raw entries kept by the party-list join for one constituency:
positive-vote parties, sorted by party-list vote descending, first three. -/
def top3_selected (l : List RawConsPartyResult) : List RawConsPartyResult :=
  ((l.filter (fun rp => 0 < rp.party_list_vote)).insertionSort pl_vote_ge).take 3

/-- Resolution of one kept party entry (name/color via the party map). -/
def resolve_party_entry (pmap : Int → Option (String × String))
    (rp : RawConsPartyResult) : PartyListResultResolved :=
  let party := (pmap rp.party_id).getD ("ไม่ทราบพรรค", "#666")
  { party_name := party.1
    party_color := party.2
    votes := rp.party_list_vote
    vote_percent := rp.party_list_vote_percent }

/-- `build_party_list_lookup`: top-3 positive-vote parties per non-summary
constituency with a non-empty `result_party` list. -/
def build_party_list_lookup (stats : RawStatsCons)
    (parties : List RawPartyOverview) : List (String × ConsPartyListData) :=
  let pmap := party_map parties
  stats.result_province.flatMap fun prov =>
    prov.constituencies.filterMap fun cons =>
      if is_summary_id cons.cons_id then none
      else
        match cons.result_party with
        | none => none
        | some [] => none
        | some l =>
            some (cons.cons_id,
              { turn_out := cons.party_list_turn_out
                top_parties := (top3_selected l).map (resolve_party_entry pmap) })

/-- `build_referendum_lookup`: first question's percentages per non-summary
constituency having at least one question block. -/
def build_referendum_lookup (referendum : RawStatsReferendum) :
    List (String × ConsReferendumData) :=
  referendum.result_province.flatMap fun prov =>
    prov.constituencies.filterMap fun cons =>
      if is_summary_id cons.cons_id then none
      else
        match cons.referendum_results with
        | [] => none
        | (_, rd) :: _ =>
            some (cons.cons_id,
              { percent_yes := rd.percent_yes
                percent_no := rd.percent_no
                percent_abstained := rd.percent_abstained })

/-- Diff record computed for one constituency (`build_diff_lookup` body). -/
def diff_record (cons : RawStatsConstituency) : ConsDiffData :=
  let mp_turn_out := cons.turn_out.getD 0
  let mp_percent := cons.percent_turn_out.getD 0
  let pl_turn_out := cons.party_list_turn_out.getD 0
  let pl_percent := cons.party_list_percent_turn_out.getD 0
  { mp_turn_out := mp_turn_out
    mp_percent_turn_out := mp_percent
    party_list_turn_out := pl_turn_out
    party_list_percent_turn_out := pl_percent
    diff_count := mp_turn_out - pl_turn_out
    diff_percent := mp_percent - pl_percent }

/-- `build_diff_lookup`: signed MP-vs-party-list turnout differences per
non-summary constituency. -/
def build_diff_lookup (stats : RawStatsCons) : List (String × ConsDiffData) :=
  stats.result_province.flatMap fun prov =>
    prov.constituencies.filterMap fun cons =>
      if is_summary_id cons.cons_id then none
      else some (cons.cons_id, diff_record cons)

/-- `safe_pct`: `value / total * 100`, or `0` when the total is not
positive (the divide-by-zero guard of the forensics join). -/
def safe_pct (value total : ℚ) : ℚ :=
  if 0 < total then value / total * 100 else 0

/-- Registry sub-lookup of `build_forensics_lookup` (`cons_ref`): unit id to
(registered voters, station count), last record wins, summary rows skipped. -/
def cons_ref (ect_records : List ConstituencyRecord) :
    String → Option (ℚ × ℚ) :=
  ect_records.foldl
    (fun m rec =>
      if rec.cons_no = 0 then m
      else fun k =>
        if k = rec.cons_id then
          some (rec.registered_vote.getD 0, rec.total_vote_stations.getD 0)
        else m k)
    (fun _ => none)

/-- Forensics record computed for one constituency
(`build_forensics_lookup` loop body). -/
def forensics_record (ref : String → Option (ℚ × ℚ))
    (cons : RawStatsConstituency) : ConsBallotForensicsData :=
  let mp_turnout := cons.turn_out.getD 0
  let pl_turnout := cons.party_list_turn_out.getD 0
  let mp_invalid := cons.invalid_votes.getD 0
  let pl_invalid := cons.party_list_invalid_votes.getD 0
  let mp_blank := cons.blank_votes.getD 0
  let pl_blank := cons.party_list_blank_votes.getD 0
  let mp_valid := cons.valid_votes.getD 0
  let pl_valid := cons.party_list_valid_votes.getD 0
  let mp_invalid_pct := safe_pct mp_invalid mp_turnout
  let pl_invalid_pct := safe_pct pl_invalid pl_turnout
  let mp_blank_pct := safe_pct mp_blank mp_turnout
  let pl_blank_pct := safe_pct pl_blank pl_turnout
  let mp_valid_pct := safe_pct mp_valid mp_turnout
  let pl_valid_pct := safe_pct pl_valid pl_turnout
  let r := ref cons.cons_id
  let registered := (r.map Prod.fst).getD 0
  let total_stations := (r.map Prod.snd).getD 0
  { mp_invalid_votes := mp_invalid
    mp_invalid_pct := mp_invalid_pct
    pl_invalid_votes := pl_invalid
    pl_invalid_pct := pl_invalid_pct
    invalid_diff := mp_invalid_pct - pl_invalid_pct
    mp_blank_votes := mp_blank
    mp_blank_pct := mp_blank_pct
    pl_blank_votes := pl_blank
    pl_blank_pct := pl_blank_pct
    blank_diff := mp_blank_pct - pl_blank_pct
    mp_valid_votes := mp_valid
    mp_valid_pct := mp_valid_pct
    pl_valid_votes := pl_valid
    pl_valid_pct := pl_valid_pct
    valid_diff := mp_valid_pct - pl_valid_pct
    counted_vote_stations := cons.counted_vote_stations.getD 0
    total_vote_stations := total_stations
    percent_count := cons.percent_count.getD 0
    pause_report := cons.pause_report.getD false
    registered_voters := registered
    mp_turnout_of_registered := safe_pct mp_turnout registered }

/-- `build_forensics_lookup`: invalid/blank/valid percentages and reporting
completeness per non-summary constituency, joined with the registry. -/
def build_forensics_lookup (stats : RawStatsCons)
    (ect_records : List ConstituencyRecord) :
    List (String × ConsBallotForensicsData) :=
  let ref := cons_ref ect_records
  stats.result_province.flatMap fun prov =>
    prov.constituencies.filterMap fun cons =>
      if is_summary_id cons.cons_id then none
      else some (cons.cons_id, forensics_record ref cons)

-- ── build_election_lookups (lib/data.ts) ──────────────────────────────────

/-- The `ElectionLookups` bundle of five resolved maps. -/
structure ElectionLookups where
  winners : List (String × ConsWinnerData)
  party_list : List (String × ConsPartyListData)
  referendum : List (String × ConsReferendumData)
  diff : List (String × ConsDiffData)
  forensics : List (String × ConsBallotForensicsData)

/-- The empty fallback bundle (`empty_lookups` in the source). -/
def empty_lookups : ElectionLookups :=
  { winners := [], party_list := [], referendum := [], diff := [],
    forensics := [] }

/-- A fetch/parse outcome: `Except` models a settled promise, `.error`
covering both a failed fetch and a failed JSON parse. -/
abbrev Fetched (α : Type) := Except String α

/-- `Promise.all` over the four source fetches: fails when any fails. -/
def promise_all4 (a : Fetched RawStatsCons) (b : Fetched RawStatsReferendum)
    (c : Fetched (List RawMpCandidate)) (d : Fetched (List RawPartyOverview)) :
    Fetched (RawStatsCons × RawStatsReferendum ×
      List RawMpCandidate × List RawPartyOverview) := do
  let sa ← a
  let sb ← b
  let sc ← c
  let sd ← d
  pure (sa, sb, sc, sd)

/-- Whether a settled fetch is a failure. -/
def fetch_failed : Fetched α → Bool
  | .error _ => true
  | .ok _ => false

/-- `build_election_lookups`: builds the five lookups from the four fetched
sources, falling back to `empty_lookups` when the joined fetch failed (the
`try`/`catch` of the source, which also covers fetch-time throws). -/
def build_election_lookups (fa : Fetched RawStatsCons)
    (fb : Fetched RawStatsReferendum) (fc : Fetched (List RawMpCandidate))
    (fd : Fetched (List RawPartyOverview))
    (ect_records : Option (List ConstituencyRecord)) : ElectionLookups :=
  match promise_all4 fa fb fc fd with
  | .error _ => empty_lookups
  | .ok (stats_cons, stats_ref, mp_candidates, party_overview) =>
      { winners := build_winner_lookup stats_cons mp_candidates party_overview
        party_list := build_party_list_lookup stats_cons party_overview
        referendum := build_referendum_lookup stats_ref
        diff := build_diff_lookup stats_cons
        forensics := build_forensics_lookup stats_cons (ect_records.getD []) }

-- ── Geo matcher (lib/data.ts: build_ect_lookup / enrich_constituency_features)

/-- Modelled from the spec: the fixed province-name/code tables
(`PROV_ID_TO_THAI`, `PROV_ID_TO_NAME`, `THAI_NAME_TO_PROV_ID`) live in the
constants module, which is not part of the sources; the spec describes them
as "a fixed name→code table (including known alias spellings)", so they are
passed to the matcher as explicit immutable maps. -/
structure ProvinceTables where
  prov_id_to_thai : String → Option String
  prov_id_to_name : String → Option String
  thai_name_to_prov_id : String → Option String

/-- The `{prov_id}:{cons_no}` composite key of the ECT lookup. -/
def ect_key (prov_id : String) (cons_no : Int) : String :=
  prov_id ++ ":" ++ toString cons_no

/-- Resolution of one registry record into `ConstituencyData`
(`build_ect_lookup` loop body). -/
def ect_data (tables : ProvinceTables) (rec : ConstituencyRecord) :
    ConstituencyData :=
  { cons_id := rec.cons_id
    cons_no := rec.cons_no
    prov_id := rec.prov_id
    prov_name_th := (tables.prov_id_to_thai rec.prov_id).getD ""
    prov_name_en := (tables.prov_id_to_name rec.prov_id).getD rec.prov_id
    zone := rec.zone
    vote_stations := rec.total_vote_stations.getD 0
    registered_voters := rec.registered_vote.getD 0 }

/-- `build_ect_lookup`: registry index keyed by `{prov_id}:{cons_no}`,
skipping province-level summary records; later records with the same key
silently overwrite earlier ones (JS `Map.set`). -/
def build_ect_lookup (tables : ProvinceTables)
    (records : List ConstituencyRecord) : String → Option ConstituencyData :=
  records.foldl
    (fun m rec =>
      if rec.cons_no = 0 then m
      else fun k =>
        if k = ect_key rec.prov_id rec.cons_no then some (ect_data tables rec)
        else m k)
    (fun _ => none)

/-- A boundary polygon's properties read by the matcher (`P_name`,
`CONS_no`, after the source's `|| ""` / `|| 0` defaulting). -/
structure BoundaryFeature where
  p_name : String
  cons_no : Int

/-- A boundary feature after enrichment (`_cons_data` / `_label` props). -/
structure EnrichedFeature where
  p_name : String
  cons_no : Int
  cons_data : Option ConstituencyData
  label : String

/-- Enrichment of a single boundary feature: resolve the province code from
the Thai name, look up `{code}:{cons_no}` when the code resolved and the
district number is positive, and attach the result (or null). -/
def enrich_feature (tables : ProvinceTables)
    (ect_lookup : String → Option ConstituencyData) (f : BoundaryFeature) :
    EnrichedFeature :=
  let prov_id := tables.thai_name_to_prov_id f.p_name
  let cons_data :=
    match prov_id with
    | some pid =>
        if 0 < f.cons_no then ect_lookup (ect_key pid f.cons_no) else none
    | none => none
  let label :=
    match cons_data with
    | some cd => cd.prov_name_th ++ " เขต " ++ toString f.cons_no
    | none => f.p_name ++ " เขต " ++ toString f.cons_no
  { p_name := f.p_name, cons_no := f.cons_no, cons_data := cons_data,
    label := label }

/-- `enrich_constituency_features`: enrich every boundary feature against
the registry index. -/
def enrich_constituency_features (tables : ProvinceTables)
    (features : List BoundaryFeature) (ect_records : List ConstituencyRecord) :
    List EnrichedFeature :=
  let ect_lookup := build_ect_lookup tables ect_records
  features.map (enrich_feature tables ect_lookup)

-- ── Regional aggregator (diff_stats_panel.tsx) ────────────────────────────

/-- Aggregated diff statistics (`RegionDiffStats`).  `total` and
`mismatch_count` are counters; the extrema are reported as `0` for an empty
group (the `±Infinity` sentinel conversion of the source). -/
structure RegionDiffStats where
  total : Nat
  mismatch_count : Nat
  avg_percent : ℚ
  max_percent : ℚ
  min_percent : ℚ
  max_count : ℚ
  min_count : ℚ
  sum_abs_count : ℚ
  sum_abs_percent : ℚ
  total_mp_turnout : ℚ
  total_pl_turnout : ℚ
  max_cons_id : String
  min_cons_id : String

/-- The running accumulator of the `compute_region_stats` loop.  The
`±Infinity` extrema sentinels are modelled as `none`. -/
structure RegionStatsAcc where
  total : Nat
  mismatch_count : Nat
  sum_abs_percent : ℚ
  sum_abs_count_total : ℚ
  total_mp_turnout : ℚ
  total_pl_turnout : ℚ
  max_percent : Option ℚ
  min_percent : Option ℚ
  max_abs_count : Option ℚ
  min_abs_count : Option ℚ
  max_cons_id : String
  min_cons_id : String

/-- The initial accumulator of `compute_region_stats`. -/
def region_stats_init : RegionStatsAcc :=
  { total := 0, mismatch_count := 0, sum_abs_percent := 0,
    sum_abs_count_total := 0, total_mp_turnout := 0, total_pl_turnout := 0,
    max_percent := none, min_percent := none, max_abs_count := none,
    min_abs_count := none, max_cons_id := "", min_cons_id := "" }

/-- Resolution of one feature inside the `compute_region_stats` loop: the
two `continue` guards (missing `_cons_data`, missing diff entry). -/
def region_resolve (diff_lookup : String → Option ConsDiffData)
    (f : EnrichedFeature) : Option (String × ConsDiffData) :=
  f.cons_data.bind fun data =>
    (diff_lookup data.cons_id).map fun diff => (data.cons_id, diff)

/-- `x > max` against a running maximum whose absence means `-Infinity`. -/
def gt_running_max (x : ℚ) : Option ℚ → Bool
  | none => true
  | some m => decide (m < x)

/-- `x < min` against a running minimum whose absence means `Infinity`. -/
def lt_running_min (x : ℚ) : Option ℚ → Bool
  | none => true
  | some m => decide (x < m)

/-- One iteration of the `compute_region_stats` loop. -/
def region_stats_step (diff_lookup : String → Option ConsDiffData)
    (acc : RegionStatsAcc) (f : EnrichedFeature) : RegionStatsAcc :=
  match region_resolve diff_lookup f with
  | none => acc
  | some (cons_id, diff) =>
      let abs_count := |diff.diff_count|
      { total := acc.total + 1
        mismatch_count :=
          if diff.diff_count ≠ 0 then acc.mismatch_count + 1
          else acc.mismatch_count
        sum_abs_percent := acc.sum_abs_percent + |diff.diff_percent|
        sum_abs_count_total := acc.sum_abs_count_total + abs_count
        total_mp_turnout := acc.total_mp_turnout + diff.mp_turn_out
        total_pl_turnout := acc.total_pl_turnout + diff.party_list_turn_out
        max_percent :=
          if gt_running_max diff.diff_percent acc.max_percent then
            some diff.diff_percent
          else acc.max_percent
        min_percent :=
          if lt_running_min diff.diff_percent acc.min_percent then
            some diff.diff_percent
          else acc.min_percent
        max_abs_count :=
          if gt_running_max abs_count acc.max_abs_count then some abs_count
          else acc.max_abs_count
        min_abs_count :=
          if lt_running_min abs_count acc.min_abs_count then some abs_count
          else acc.min_abs_count
        max_cons_id :=
          if gt_running_max abs_count acc.max_abs_count then cons_id
          else acc.max_cons_id
        min_cons_id :=
          if lt_running_min abs_count acc.min_abs_count then cons_id
          else acc.min_cons_id }

/-- `compute_region_stats`: single-pass aggregation of the diff data of a
feature group. -/
def compute_region_stats (features : List EnrichedFeature)
    (diff_lookup : String → Option ConsDiffData) : RegionDiffStats :=
  let acc := features.foldl (region_stats_step diff_lookup) region_stats_init
  { total := acc.total
    mismatch_count := acc.mismatch_count
    avg_percent := if 0 < acc.total then acc.sum_abs_percent / acc.total else 0
    max_percent := acc.max_percent.getD 0
    min_percent := acc.min_percent.getD 0
    max_count := acc.max_abs_count.getD 0
    min_count := acc.min_abs_count.getD 0
    sum_abs_count := acc.sum_abs_count_total
    sum_abs_percent := acc.sum_abs_percent
    total_mp_turnout := acc.total_mp_turnout
    total_pl_turnout := acc.total_pl_turnout
    max_cons_id := acc.max_cons_id
    min_cons_id := acc.min_cons_id }

/-- The resolved items of a feature group (the loop iterations that pass
both guards), used to relate the aggregator to list sums. -/
def region_items (diff_lookup : String → Option ConsDiffData)
    (features : List EnrichedFeature) : List (String × ConsDiffData) :=
  features.filterMap (region_resolve diff_lookup)

-- ── Z-score anomaly test (party_analysis_client.tsx) ──────────────────────

/-- Per-constituency data point of the party-analysis dashboard
(`PartyConsItem`). -/
structure PartyConsItem where
  cons_id : String
  prov_name_th : String
  cons_no : Int
  diff_count : ℚ
  diff_percent : ℚ
  mp_turn_out : ℚ
  pl_turn_out : ℚ
  candidate_name : String
  party_name : String
  party_color : String
  region : String
deriving DecidableEq

/-- `d3.mean`: the arithmetic mean, undefined on an empty list. -/
def d3_mean (l : List ℚ) : Option ℚ :=
  if l.length = 0 then none else some (l.sum / l.length)

/-- `d3.variance`: the unbiased sample variance `Σ(x − x̄)² / (n − 1)`,
undefined when fewer than two values (so `d3.deviation`, its square root,
is likewise undefined then). -/
def d3_variance (l : List ℚ) : Option ℚ :=
  if 2 ≤ l.length then
    some ((l.map (fun x => (x - ((l.sum : ℚ) / l.length)) ^ 2)).sum /
      ((l.length : ℚ) - 1))
  else none

/-- The global mean of `global_stats` (`d3.mean(diffs) ?? 0`). -/
def global_mean (items : List PartyConsItem) : ℚ :=
  (d3_mean (items.map (·.diff_count))).getD 0

/-- The global standard deviation of `global_stats`
(`d3.deviation(diffs) ?? 1`), as a real number. -/
noncomputable def global_std (items : List PartyConsItem) : ℝ :=
  match d3_variance (items.map (·.diff_count)) with
  | some v => Real.sqrt v
  | none => 1

/-- The code's anomaly test `Math.abs((x − mean) / std) > 2`, decided in
rational arithmetic: for a positive variance `v` the comparison
`|x − mean| / √v > 2` is equivalent to `4·v < (x − mean)²`; for `v = 0`
the JavaScript quotient is `±∞` (flagged) unless `x = mean` (`NaN`, not
flagged); without a deviation the default divisor is `1`.
`zscore_anomalous_iff_real` proves the equivalence with the real-valued
formula. -/
def zscore_anomalous (items : List PartyConsItem) (x : ℚ) : Bool :=
  let m := global_mean items
  match d3_variance (items.map (·.diff_count)) with
  | none => decide (2 < |x - m|)
  | some v =>
      if v = 0 then decide (x ≠ m)
      else decide (4 * v < (x - m) ^ 2)

/-- A party's aggregated z-score statistics (the fields of `PartyStats`
that the anomaly table reads). -/
structure PartyStats where
  party_name : String
  party_color : String
  cons_won : Nat
  total_abs_diff : ℚ
  anomaly_count : Nat
  anomalies : List PartyConsItem

/-- The distinct party names in first-appearance order: the key order of
the JS `Map` the grouping loop fills. -/
def party_keys (items : List PartyConsItem) : List String :=
  items.foldl
    (fun acc i => if i.party_name ∈ acc then acc else acc ++ [i.party_name])
    []

/-- One party's group: since the grouping loop appends items in iteration
order, the group is the sublist of items carrying that party name. -/
def party_group (items : List PartyConsItem) (p : String) :
    List PartyConsItem :=
  items.filter (fun i => i.party_name = p)

/-- The statistics record built for one party (`party_stats` loop body):
anomalies are the group's items flagged by the global z-score test. -/
def party_stats_of (items : List PartyConsItem) (p : String) : PartyStats :=
  let group := party_group items p
  let anomalies := group.filter (fun i => zscore_anomalous items i.diff_count)
  { party_name := p
    party_color := ((group.head?.map (·.party_color)).getD "")
    cons_won := group.length
    total_abs_diff := (group.map (fun i => |i.diff_count|)).sum
    anomaly_count := anomalies.length
    anomalies := anomalies }

/-- The descending `total_abs_diff` ordering of the final
`stats.sort((a, b) => b.total_abs_diff - a.total_abs_diff)`. -/
def stats_desc (a b : PartyStats) : Prop :=
  b.total_abs_diff ≤ a.total_abs_diff

instance : DecidableRel stats_desc := fun a b =>
  inferInstanceAs (Decidable (b.total_abs_diff ≤ a.total_abs_diff))

instance : IsTotal PartyStats stats_desc :=
  ⟨fun a b => le_total b.total_abs_diff a.total_abs_diff⟩

instance : IsTrans PartyStats stats_desc :=
  ⟨fun _ _ _ hab hbc => le_trans hbc hab⟩

/-- `party_stats`: per-party statistics over all items, sorted by total
absolute diff descending. -/
def party_stats (items : List PartyConsItem) : List PartyStats :=
  ((party_keys items).map (party_stats_of items)).insertionSort stats_desc

-- ── Composite anomaly score (ballot_forensics_client.tsx) ─────────────────

/-- Per-constituency forensic data point (the fields of `ForensicsItem`
read by the composite-score computation). -/
structure ForensicsItem where
  cons_id : String
  invalid_diff : ℚ
  blank_diff : ℚ
  turnout_diff_pct : ℚ
  election_turnout_pct : ℚ
  referendum_turnout_pct : ℚ
  percent_count : ℚ

/-- A signal's observed maximum magnitude across all items
(`d3.max(items, d => Math.abs(f d)) || 1`): the running maximum of the
absolute values, replaced by `1` when it is `0` (which also covers the
empty population, where `d3.max` is undefined). -/
def signal_max (items : List ForensicsItem) (f : ForensicsItem → ℚ) : ℚ :=
  let m := items.foldl (fun acc d => max acc |f d|) 0
  if m = 0 then 1 else m

/-- The composite anomaly score of one item within a population: four
normalized weighted magnitude signals plus a completeness penalty,
times 100. -/
def anomaly_score (items : List ForensicsItem) (d : ForensicsItem) : ℚ :=
  let max_invalid := signal_max items (·.invalid_diff)
  let max_blank := signal_max items (·.blank_diff)
  let max_turnout := signal_max items (·.turnout_diff_pct)
  let max_ref_gap :=
    signal_max items (fun i => i.election_turnout_pct - i.referendum_turnout_pct)
  let invalid_component := |d.invalid_diff| / max_invalid * (3 / 10)
  let blank_component := |d.blank_diff| / max_blank * (2 / 10)
  let turnout_component := |d.turnout_diff_pct| / max_turnout * (25 / 100)
  let ref_gap := |d.election_turnout_pct - d.referendum_turnout_pct|
  let ref_component := ref_gap / max_ref_gap * (15 / 100)
  let completeness_penalty : ℚ := if d.percent_count < 100 then 1 / 10 else 0
  (invalid_component + blank_component + turnout_component + ref_component +
    completeness_penalty) * 100

-- ── C1: all-or-nothing fallback of build_election_lookups ─────────────────

/-- C1: if any of the four source fetches (or their JSON parses) fails,
`build_election_lookups` does not throw and returns the bundle in which all
five lookups (winners, party_list, referendum, diff, forensics) are empty
maps — no partial data is ever returned.  (Absence of exceptions holds by
totality of the embedding: the source's `try`/`catch` converts every throw
into the same empty bundle.) -/
theorem build_election_lookups_all_empty_on_any_failure
    (fa : Fetched RawStatsCons) (fb : Fetched RawStatsReferendum)
    (fc : Fetched (List RawMpCandidate)) (fd : Fetched (List RawPartyOverview))
    (ect : Option (List ConstituencyRecord))
    (h : fetch_failed fa = true ∨ fetch_failed fb = true ∨
      fetch_failed fc = true ∨ fetch_failed fd = true) :
    build_election_lookups fa fb fc fd ect = empty_lookups ∧
    (build_election_lookups fa fb fc fd ect).winners = [] ∧
    (build_election_lookups fa fb fc fd ect).party_list = [] ∧
    (build_election_lookups fa fb fc fd ect).referendum = [] ∧
    (build_election_lookups fa fb fc fd ect).diff = [] ∧
    (build_election_lookups fa fb fc fd ect).forensics = [] := by
  have hempty : build_election_lookups fa fb fc fd ect = empty_lookups := by
    rcases fa with e | a
    · rfl
    rcases fb with e | b
    · rfl
    rcases fc with e | c
    · rfl
    rcases fd with e | d
    · rfl
    simp [fetch_failed] at h
  refine ⟨hempty, ?_, ?_, ?_, ?_, ?_⟩ <;> rw [hempty] <;> rfl

/-- Witness for C1: a single failed fetch with the other three succeeding
yields the all-empty bundle. -/
theorem build_election_lookups_all_empty_on_any_failure_witness :
    (fetch_failed (Except.error "ECT fetch failed: 500" :
        Fetched RawStatsCons) = true ∨
      fetch_failed (Except.ok (⟨[]⟩ : RawStatsReferendum)) = true ∨
      fetch_failed (Except.ok ([] : List RawMpCandidate)) = true ∨
      fetch_failed (Except.ok ([] : List RawPartyOverview)) = true) ∧
    build_election_lookups (Except.error "ECT fetch failed: 500")
      (Except.ok ⟨[]⟩) (Except.ok []) (Except.ok []) none = empty_lookups ∧
    (build_election_lookups (Except.error "ECT fetch failed: 500")
      (Except.ok ⟨[]⟩) (Except.ok []) (Except.ok []) none).winners = [] ∧
    (build_election_lookups (Except.error "ECT fetch failed: 500")
      (Except.ok ⟨[]⟩) (Except.ok []) (Except.ok []) none).party_list = [] ∧
    (build_election_lookups (Except.error "ECT fetch failed: 500")
      (Except.ok ⟨[]⟩) (Except.ok []) (Except.ok []) none).referendum = [] ∧
    (build_election_lookups (Except.error "ECT fetch failed: 500")
      (Except.ok ⟨[]⟩) (Except.ok []) (Except.ok []) none).diff = [] ∧
    (build_election_lookups (Except.error "ECT fetch failed: 500")
      (Except.ok ⟨[]⟩) (Except.ok []) (Except.ok []) none).forensics = [] :=
  ⟨Or.inl rfl,
    build_election_lookups_all_empty_on_any_failure _ _ _ _ none (Or.inl rfl)⟩

-- ── C7: exactness and totality of the diff join ───────────────────────────

/-- C7: every non-summary unit of the turnout feed gets a diff entry whose
`diff_count` is exactly `mp_turn_out − party_list_turn_out` and whose
`diff_percent` is exactly `mp_percent_turn_out − party_list_percent_turn_out`
(missing turnout fields defaulting to 0), and the entry is emitted even
when both differences are zero (the membership below is unconditional). -/
theorem build_diff_lookup_exact (stats : RawStatsCons)
    (prov : RawStatsProvince) (cons : RawStatsConstituency)
    (hp : prov ∈ stats.result_province) (hc : cons ∈ prov.constituencies)
    (hs : is_summary_id cons.cons_id = false) :
    (cons.cons_id, diff_record cons) ∈ build_diff_lookup stats ∧
    (diff_record cons).diff_count =
      cons.turn_out.getD 0 - cons.party_list_turn_out.getD 0 ∧
    (diff_record cons).diff_percent =
      cons.percent_turn_out.getD 0 - cons.party_list_percent_turn_out.getD 0 := by
  refine ⟨?_, rfl, rfl⟩
  unfold build_diff_lookup
  refine List.mem_flatMap.mpr ⟨prov, hp, List.mem_filterMap.mpr ⟨cons, hc, ?_⟩⟩
  simp [hs]

/-- Concrete unit for the C7 witness: MP turnout 1000 at 70 %, party-list
turnout 990 at 69.5 %. -/
def c7_cons : RawStatsConstituency :=
  { cons_id := "C7_1", turn_out := some 1000, percent_turn_out := some 70,
    valid_votes := none, invalid_votes := none, blank_votes := none,
    party_list_turn_out := some 990,
    party_list_percent_turn_out := some (139 / 2),
    party_list_valid_votes := none, party_list_invalid_votes := none,
    party_list_blank_votes := none, counted_vote_stations := none,
    percent_count := none, pause_report := none, candidates := [],
    result_party := none }

/-- Single-province turnout feed holding only `c7_cons`. -/
def c7_stats : RawStatsCons := ⟨[⟨"P1", [c7_cons]⟩]⟩

/-- Witness for C7: the concrete unit gets its diff entry with the exact
signed differences. -/
theorem build_diff_lookup_exact_witness :
    is_summary_id c7_cons.cons_id = false ∧
    ("C7_1", diff_record c7_cons) ∈ build_diff_lookup c7_stats ∧
    (diff_record c7_cons).diff_count =
      c7_cons.turn_out.getD 0 - c7_cons.party_list_turn_out.getD 0 ∧
    (diff_record c7_cons).diff_percent =
      c7_cons.percent_turn_out.getD 0 -
        c7_cons.party_list_percent_turn_out.getD 0 :=
  ⟨by decide,
    build_diff_lookup_exact c7_stats ⟨"P1", [c7_cons]⟩ c7_cons
      (List.mem_singleton.mpr rfl) (List.mem_singleton.mpr rfl) (by decide)⟩

-- ── Composite-score bounds (C4, C5) ───────────────────────────────────────

/-- The running maximum of the loop behind `signal_max` never drops below
its starting value. -/
lemma foldl_abs_max_init_le (f : ForensicsItem → ℚ) :
    ∀ (l : List ForensicsItem) (acc : ℚ),
      acc ≤ l.foldl (fun a d => max a |f d|) acc := by
  intro l
  induction l with
  | nil => intro acc; exact le_refl acc
  | cons x xs ih =>
      intro acc
      exact le_trans (le_max_left acc |f x|) (ih (max acc |f x|))

/-- Every member's absolute signal is bounded by the loop's final value. -/
lemma abs_le_foldl_abs_max (f : ForensicsItem → ℚ) :
    ∀ (l : List ForensicsItem) (acc : ℚ) (d : ForensicsItem), d ∈ l →
      |f d| ≤ l.foldl (fun a x => max a |f x|) acc := by
  intro l
  induction l with
  | nil => intro acc d hd; cases hd
  | cons x xs ih =>
      intro acc d hd
      rcases List.mem_cons.mp hd with rfl | hd'
      · exact le_trans (le_max_right acc |f d|)
          (foldl_abs_max_init_le f xs (max acc |f d|))
      · exact ih (max acc |f x|) d hd'

/-- `signal_max` is always strictly positive (it is a maximum of absolute
values, with `0` replaced by the `|| 1` default). -/
lemma signal_max_pos (items : List ForensicsItem) (f : ForensicsItem → ℚ) :
    0 < signal_max items f := by
  unfold signal_max
  set m := items.foldl (fun acc d => max acc |f d|) 0 with hm
  by_cases h : m = 0
  · simp [h]
  · have h0 : (0 : ℚ) ≤ m := hm ▸ foldl_abs_max_init_le f items 0
    simp only [h, if_false]
    exact lt_of_le_of_ne h0 (Ne.symm h)

/-- A member's absolute signal is bounded by `signal_max`. -/
lemma abs_le_signal_max (items : List ForensicsItem) (f : ForensicsItem → ℚ)
    (d : ForensicsItem) (hd : d ∈ items) : |f d| ≤ signal_max items f := by
  unfold signal_max
  set m := items.foldl (fun acc x => max acc |f x|) 0 with hm
  have hle : |f d| ≤ m := hm ▸ abs_le_foldl_abs_max f items 0 d hd
  by_cases h : m = 0
  · have : |f d| ≤ 0 := h ▸ hle
    simp only [h, if_true]
    exact le_trans this (by norm_num)
  · simpa [h] using hle

/-- One weighted normalized component is nonnegative. -/
lemma component_nonneg (x m w : ℚ) (hm : 0 < m) (hw : 0 ≤ w) :
    0 ≤ |x| / m * w :=
  mul_nonneg (div_nonneg (abs_nonneg x) hm.le) hw

/-- One weighted normalized component is at most its weight. -/
lemma component_le_weight (x m w : ℚ) (hm : 0 < m) (hx : |x| ≤ m)
    (hw : 0 ≤ w) : |x| / m * w ≤ w := by
  have h1 : |x| / m ≤ 1 := (div_le_one hm).mpr hx
  calc |x| / m * w ≤ 1 * w :=
        mul_le_mul_of_nonneg_right h1 hw
    _ = w := one_mul w

/-- Shared bound for C5: within any population, no item's composite score
exceeds 100 (each normalized signal is at most 1, the weights sum to 0.9
and the penalty is at most 0.1). -/
lemma anomaly_score_le_100 (items : List ForensicsItem) (d : ForensicsItem)
    (hd : d ∈ items) : anomaly_score items d ≤ 100 := by
  unfold anomaly_score
  have h1 := component_le_weight d.invalid_diff _ (3 / 10)
    (signal_max_pos items (·.invalid_diff))
    (abs_le_signal_max items (·.invalid_diff) d hd) (by norm_num)
  have h2 := component_le_weight d.blank_diff _ (2 / 10)
    (signal_max_pos items (·.blank_diff))
    (abs_le_signal_max items (·.blank_diff) d hd) (by norm_num)
  have h3 := component_le_weight d.turnout_diff_pct _ (25 / 100)
    (signal_max_pos items (·.turnout_diff_pct))
    (abs_le_signal_max items (·.turnout_diff_pct) d hd) (by norm_num)
  have h4 := component_le_weight
    (d.election_turnout_pct - d.referendum_turnout_pct) _ (15 / 100)
    (signal_max_pos items (fun i => i.election_turnout_pct - i.referendum_turnout_pct))
    (abs_le_signal_max items
      (fun i => i.election_turnout_pct - i.referendum_turnout_pct) d hd)
    (by norm_num)
  have h5 : (if d.percent_count < 100 then (1 : ℚ) / 10 else 0) ≤ 1 / 10 := by
    split <;> norm_num
  simp only
  nlinarith [h1, h2, h3, h4, h5]

/-- C4: within any unit population, every unit's composite anomaly score is
nonnegative, and when the unit's four magnitude signals are all zero the
score is exactly the completeness penalty — 10 when `percent_count < 100`,
otherwise 0 (each signal's normalizing maximum defaulting to 1 when the
observed maximum is 0, so no division by zero occurs). -/
theorem anomaly_score_nonneg_and_zero_signals
    (items : List ForensicsItem) (d : ForensicsItem) (_hd : d ∈ items) :
    0 ≤ anomaly_score items d ∧
    (|d.invalid_diff| = 0 → |d.blank_diff| = 0 → |d.turnout_diff_pct| = 0 →
      |d.election_turnout_pct - d.referendum_turnout_pct| = 0 →
      anomaly_score items d =
        if d.percent_count < 100 then 10 else 0) := by
  constructor
  · unfold anomaly_score
    have h1 := component_nonneg d.invalid_diff _ (3 / 10)
      (signal_max_pos items (·.invalid_diff)) (by norm_num)
    have h2 := component_nonneg d.blank_diff _ (2 / 10)
      (signal_max_pos items (·.blank_diff)) (by norm_num)
    have h3 := component_nonneg d.turnout_diff_pct _ (25 / 100)
      (signal_max_pos items (·.turnout_diff_pct)) (by norm_num)
    have h4 := component_nonneg
      (d.election_turnout_pct - d.referendum_turnout_pct) _ (15 / 100)
      (signal_max_pos items
        (fun i => i.election_turnout_pct - i.referendum_turnout_pct))
      (by norm_num)
    have h5 : (0 : ℚ) ≤ if d.percent_count < 100 then (1 : ℚ) / 10 else 0 := by
      split <;> norm_num
    simp only
    nlinarith [h1, h2, h3, h4, h5]
  · intro hi hb ht hr
    unfold anomaly_score
    simp only [hi, hb, ht, hr, zero_div, zero_mul, zero_add, add_zero]
    split <;> norm_num

/-- All-quiet unit used by the C4 witness: every signal zero, reporting
incomplete. -/
def c4_item : ForensicsItem :=
  { cons_id := "C4_1", invalid_diff := 0, blank_diff := 0,
    turnout_diff_pct := 0, election_turnout_pct := 60,
    referendum_turnout_pct := 60, percent_count := 50 }

/-- Witness for C4: in the singleton population of `c4_item` the score is
nonnegative and — all four signals being zero — equals the completeness
penalty 10. -/
theorem anomaly_score_nonneg_and_zero_signals_witness :
    c4_item ∈ [c4_item] ∧
    (0 ≤ anomaly_score [c4_item] c4_item ∧
      (|c4_item.invalid_diff| = 0 → |c4_item.blank_diff| = 0 →
        |c4_item.turnout_diff_pct| = 0 →
        |c4_item.election_turnout_pct - c4_item.referendum_turnout_pct| = 0 →
        anomaly_score [c4_item] c4_item =
          if c4_item.percent_count < 100 then 10 else 0)) :=
  ⟨List.mem_singleton.mpr rfl,
    anomaly_score_nonneg_and_zero_signals [c4_item] c4_item
      (List.mem_singleton.mpr rfl)⟩

/-- Counterexample for C5: the composite score can never exceed 100 for any
unit of any population — the claimed score above 100 does not exist. -/
theorem anomaly_score_never_exceeds_100 :
    ¬ ∃ (items : List ForensicsItem) (d : ForensicsItem),
        d ∈ items ∧ 100 < anomaly_score items d := by
  rintro ⟨items, d, hd, h⟩
  exact absurd h (not_lt.mpr (anomaly_score_le_100 items d hd))

/-- C5 (amended): the composite anomaly score is bounded above by 100 —
each normalized signal is at most 1, so the weighted sum plus penalty is at
most 1 and the score at most 100 (the bound is attained, e.g. by a unit
whose four signals all equal the population maxima with incomplete
reporting). -/
theorem anomaly_score_bounded_by_100 (items : List ForensicsItem)
    (d : ForensicsItem) (hd : d ∈ items) : anomaly_score items d ≤ 100 :=
  anomaly_score_le_100 items d hd

/-- Maximal unit used by the C5 witness: every signal at the population
maximum and reporting incomplete. -/
def c5_item : ForensicsItem :=
  { cons_id := "C5_1", invalid_diff := 2, blank_diff := 1,
    turnout_diff_pct := 3, election_turnout_pct := 65,
    referendum_turnout_pct := 60, percent_count := 99 }

/-- Witness for C5 (amended): even the all-maximal incomplete unit scores
exactly 100, not more. -/
theorem anomaly_score_bounded_by_100_witness :
    c5_item ∈ [c5_item] ∧ anomaly_score [c5_item] c5_item ≤ 100 ∧
    anomaly_score [c5_item] c5_item = 100 :=
  ⟨List.mem_singleton.mpr rfl,
    anomaly_score_bounded_by_100 [c5_item] c5_item
      (List.mem_singleton.mpr rfl),
    by norm_num [anomaly_score, signal_max, c5_item, abs]⟩

-- ── Forensics percentages (C3) ────────────────────────────────────────────

/-- `safe_pct` returns exactly 0 on a zero total. -/
lemma safe_pct_of_total_eq_zero (value : ℚ) : safe_pct value 0 = 0 := by
  simp [safe_pct]

/-- `safe_pct` is the plain `value / total * 100` on a positive total. -/
lemma safe_pct_of_total_pos (value total : ℚ) (h : 0 < total) :
    safe_pct value total = value / total * 100 := by
  simp [safe_pct, h]

/-- `safe_pct` is nonnegative whenever the value is. -/
lemma safe_pct_nonneg (value total : ℚ) (hv : 0 ≤ value) :
    0 ≤ safe_pct value total := by
  unfold safe_pct
  split
  · positivity
  · exact le_refl 0

/-- `safe_pct` is at most 100 whenever `0 ≤ value ≤ total`. -/
lemma safe_pct_le_100 (value total : ℚ) (_hv : 0 ≤ value) (hvt : value ≤ total) :
    safe_pct value total ≤ 100 := by
  unfold safe_pct
  split
  · rename_i h
    have h1 : value / total ≤ 1 := (div_le_one h).mpr hvt
    nlinarith
  · norm_num

/-- Every resolved forensics record is the image of a feed unit under
`forensics_record`. -/
lemma build_forensics_lookup_mem (stats : RawStatsCons)
    (ect_records : List ConstituencyRecord) (prov : RawStatsProvince)
    (cons : RawStatsConstituency) (hp : prov ∈ stats.result_province)
    (hc : cons ∈ prov.constituencies)
    (hs : is_summary_id cons.cons_id = false) :
    (cons.cons_id, forensics_record (cons_ref ect_records) cons) ∈
      build_forensics_lookup stats ect_records := by
  unfold build_forensics_lookup
  refine List.mem_flatMap.mpr ⟨prov, hp, List.mem_filterMap.mpr ⟨cons, hc, ?_⟩⟩
  simp [hs]

/-- C3 (amended): every non-summary unit of the turnout feed yields a
forensics record whose percentage fields are exactly `safe_pct` of the
unit's counts over the corresponding turnout (MP-turnout-of-registered over
the registry's registered count), `safe_pct` being `value/total*100` for a
positive total and exactly 0 for a zero total — so the fields are never
`NaN` and no exception occurs; the fields lie in `[0, 100]` under the
additional (unchecked) assumption that the counts are nonnegative and do
not exceed the corresponding total. -/
theorem build_forensics_lookup_safe_percentages (stats : RawStatsCons)
    (ect_records : List ConstituencyRecord) (prov : RawStatsProvince)
    (cons : RawStatsConstituency) (hp : prov ∈ stats.result_province)
    (hc : cons ∈ prov.constituencies)
    (hs : is_summary_id cons.cons_id = false) :
    ∃ r, (cons.cons_id, r) ∈ build_forensics_lookup stats ect_records ∧
      r = forensics_record (cons_ref ect_records) cons ∧
      r.mp_invalid_pct =
        safe_pct (cons.invalid_votes.getD 0) (cons.turn_out.getD 0) ∧
      r.pl_invalid_pct =
        safe_pct (cons.party_list_invalid_votes.getD 0)
          (cons.party_list_turn_out.getD 0) ∧
      r.mp_blank_pct =
        safe_pct (cons.blank_votes.getD 0) (cons.turn_out.getD 0) ∧
      r.pl_blank_pct =
        safe_pct (cons.party_list_blank_votes.getD 0)
          (cons.party_list_turn_out.getD 0) ∧
      r.mp_valid_pct =
        safe_pct (cons.valid_votes.getD 0) (cons.turn_out.getD 0) ∧
      r.pl_valid_pct =
        safe_pct (cons.party_list_valid_votes.getD 0)
          (cons.party_list_turn_out.getD 0) ∧
      r.mp_turnout_of_registered =
        safe_pct (cons.turn_out.getD 0)
          (((cons_ref ect_records cons.cons_id).map Prod.fst).getD 0) ∧
      (∀ value total : ℚ,
        (total = 0 → safe_pct value total = 0) ∧
        (0 < total → safe_pct value total = value / total * 100) ∧
        (0 ≤ value → value ≤ total →
          0 ≤ safe_pct value total ∧ safe_pct value total ≤ 100)) := by
  refine ⟨forensics_record (cons_ref ect_records) cons,
    build_forensics_lookup_mem stats ect_records prov cons hp hc hs,
    rfl, rfl, rfl, rfl, rfl, rfl, rfl, rfl, ?_⟩
  intro value total
  exact ⟨fun h => h ▸ safe_pct_of_total_eq_zero value,
    safe_pct_of_total_pos value total,
    fun hv hvt => ⟨safe_pct_nonneg value total hv,
      safe_pct_le_100 value total hv hvt⟩⟩

/-- Unit used by the C3 counterexample and witness: 200 invalid votes
reported against a turnout of 100. -/
def c3_cons : RawStatsConstituency :=
  { cons_id := "C3_1", turn_out := some 100, percent_turn_out := none,
    valid_votes := none, invalid_votes := some 200, blank_votes := none,
    party_list_turn_out := none, party_list_percent_turn_out := none,
    party_list_valid_votes := none, party_list_invalid_votes := none,
    party_list_blank_votes := none, counted_vote_stations := none,
    percent_count := none, pause_report := none, candidates := [],
    result_party := none }

/-- Single-province turnout feed holding only `c3_cons`. -/
def c3_stats : RawStatsCons := ⟨[⟨"P1", [c3_cons]⟩]⟩

/-- Counterexample for C3: with a positive turnout of 100 but 200 reported
invalid votes (the feed is never validated), the emitted invalid-vote
percentage is 200 — outside `[0, 100]`. -/
theorem build_forensics_lookup_pct_can_exceed_100 :
    ∃ r, ("C3_1", r) ∈ build_forensics_lookup c3_stats [] ∧
      c3_cons.turn_out.getD 0 = 100 ∧ r.mp_invalid_pct = 200 ∧
      ¬ r.mp_invalid_pct ≤ 100 := by
  refine ⟨forensics_record (cons_ref []) c3_cons, ?_, rfl, ?_, ?_⟩
  · exact build_forensics_lookup_mem c3_stats [] ⟨"P1", [c3_cons]⟩ c3_cons
      (List.mem_singleton.mpr rfl) (List.mem_singleton.mpr rfl) (by decide)
  · norm_num [forensics_record, safe_pct, c3_cons]
  · norm_num [forensics_record, safe_pct, c3_cons]

/-- Witness for C3 (amended): the theorem applied to the concrete feed
`c3_stats`. -/
theorem build_forensics_lookup_safe_percentages_witness :
    is_summary_id c3_cons.cons_id = false ∧
    ∃ r, ("C3_1", r) ∈ build_forensics_lookup c3_stats [] ∧
      r = forensics_record (cons_ref []) c3_cons ∧
      r.mp_invalid_pct =
        safe_pct (c3_cons.invalid_votes.getD 0) (c3_cons.turn_out.getD 0) ∧
      r.pl_invalid_pct =
        safe_pct (c3_cons.party_list_invalid_votes.getD 0)
          (c3_cons.party_list_turn_out.getD 0) ∧
      r.mp_blank_pct =
        safe_pct (c3_cons.blank_votes.getD 0) (c3_cons.turn_out.getD 0) ∧
      r.pl_blank_pct =
        safe_pct (c3_cons.party_list_blank_votes.getD 0)
          (c3_cons.party_list_turn_out.getD 0) ∧
      r.mp_valid_pct =
        safe_pct (c3_cons.valid_votes.getD 0) (c3_cons.turn_out.getD 0) ∧
      r.pl_valid_pct =
        safe_pct (c3_cons.party_list_valid_votes.getD 0)
          (c3_cons.party_list_turn_out.getD 0) ∧
      r.mp_turnout_of_registered =
        safe_pct (c3_cons.turn_out.getD 0)
          (((cons_ref [] c3_cons.cons_id).map Prod.fst).getD 0) ∧
      (∀ value total : ℚ,
        (total = 0 → safe_pct value total = 0) ∧
        (0 < total → safe_pct value total = value / total * 100) ∧
        (0 ≤ value → value ≤ total →
          0 ≤ safe_pct value total ∧ safe_pct value total ≤ 100)) :=
  ⟨by decide,
    build_forensics_lookup_safe_percentages c3_stats [] ⟨"P1", [c3_cons]⟩
      c3_cons (List.mem_singleton.mpr rfl) (List.mem_singleton.mpr rfl)
      (by decide)⟩

-- ── Geo matching determinism (C8) ─────────────────────────────────────────

/-- Folding further registry records over an index leaves a key untouched
when none of them (with a nonzero district number) carries that key. -/
lemma build_ect_lookup_fold_preserves (tables : ProvinceTables) (key : String) :
    ∀ (l : List ConstituencyRecord) (m : String → Option ConstituencyData),
      (∀ r ∈ l, r.cons_no ≠ 0 → ect_key r.prov_id r.cons_no ≠ key) →
      (l.foldl
        (fun m rec =>
          if rec.cons_no = 0 then m
          else fun k =>
            if k = ect_key rec.prov_id rec.cons_no then
              some (ect_data tables rec)
            else m k)
        m) key = m key := by
  intro l
  induction l with
  | nil => intro m _; rfl
  | cons r rs ih =>
      intro m hl
      by_cases h0 : r.cons_no = 0
      · simpa [h0] using ih m (fun r' hr' => hl r' (List.mem_cons_of_mem r hr'))
      · have hne : ect_key r.prov_id r.cons_no ≠ key :=
          hl r (List.mem_cons_self r rs) h0
        have := ih
          (fun k =>
            if k = ect_key r.prov_id r.cons_no then some (ect_data tables r)
            else m k)
          (fun r' hr' => hl r' (List.mem_cons_of_mem r hr'))
        simpa [h0, Ne.symm hne] using this

/-- C8: geo matching is deterministic and order-independent — the enriched
list is the elementwise image of the boundary features (so the result at
each index, and hence the matched/unmatched partition, depends only on that
feature and the registry, never on the processing order; re-running on the
same inputs trivially reproduces it since the function is pure), and when
the registry contains duplicate `{province_code}:{district_number}` keys
the last-seen record is the one the index retains. -/
theorem enrich_constituency_features_deterministic (tables : ProvinceTables)
    (features : List BoundaryFeature) (ect_records : List ConstituencyRecord) :
    enrich_constituency_features tables features ect_records =
      features.map
        (enrich_feature tables (build_ect_lookup tables ect_records)) ∧
    (∀ i (h : i < features.length),
      (enrich_constituency_features tables features ect_records)[i]? =
        some (enrich_feature tables (build_ect_lookup tables ect_records)
          features[i])) ∧
    (∀ (before after : List ConstituencyRecord) (r : ConstituencyRecord),
      r.cons_no ≠ 0 →
      (∀ r2 ∈ after, r2.cons_no ≠ 0 →
        ect_key r2.prov_id r2.cons_no ≠ ect_key r.prov_id r.cons_no) →
      build_ect_lookup tables (before ++ r :: after)
          (ect_key r.prov_id r.cons_no) =
        some (ect_data tables r)) := by
  refine ⟨rfl, ?_, ?_⟩
  · intro i h
    simp [enrich_constituency_features, List.getElem?_map,
      List.getElem?_eq_getElem h]
  · intro before after r hr hafter
    unfold build_ect_lookup
    rw [List.foldl_append, List.foldl_cons]
    rw [build_ect_lookup_fold_preserves tables _ after _ hafter]
    simp [hr]

/-- Registry records used by the C8 witness: two records sharing the key
`PX:1` (the later carries 7 stations), plus an unrelated record. -/
def c8_r1 : ConstituencyRecord :=
  { cons_id := "X_1", cons_no := 1, prov_id := "PX", zone := [],
    total_vote_stations := some 3, registered_vote := some 1000 }

/-- Later duplicate of `c8_r1`'s key with different payload. -/
def c8_r2 : ConstituencyRecord :=
  { cons_id := "X_1b", cons_no := 1, prov_id := "PX", zone := [],
    total_vote_stations := some 7, registered_vote := some 2000 }

/-- A record under a different key, processed after the duplicate. -/
def c8_r3 : ConstituencyRecord :=
  { cons_id := "Y_2", cons_no := 2, prov_id := "PY", zone := [],
    total_vote_stations := some 5, registered_vote := some 500 }

/-- Empty province tables for the C8 witness. -/
def c8_tables : ProvinceTables :=
  { prov_id_to_thai := fun _ => none, prov_id_to_name := fun _ => none,
    thai_name_to_prov_id := fun _ => none }

/-- Witness for C8: on a concrete registry with a duplicate key, the
enriched list is the elementwise image, the indexed form holds, and the
last-seen duplicate `c8_r2` wins the key `PX:1`. -/
theorem enrich_constituency_features_deterministic_witness :
    (0 : Nat) < [(⟨"กรุงเทพมหานคร", 1⟩ : BoundaryFeature)].length ∧
    c8_r2.cons_no ≠ 0 ∧
    (∀ r2 ∈ [c8_r3], r2.cons_no ≠ 0 →
      ect_key r2.prov_id r2.cons_no ≠ ect_key c8_r2.prov_id c8_r2.cons_no) ∧
    build_ect_lookup c8_tables ([c8_r1] ++ c8_r2 :: [c8_r3])
        (ect_key c8_r2.prov_id c8_r2.cons_no) = some (ect_data c8_tables c8_r2) :=
  ⟨by decide, by decide,
    by
      intro r2 hr2 _
      rcases List.mem_singleton.mp hr2 with rfl
      decide,
    (enrich_constituency_features_deterministic c8_tables
        [⟨"กรุงเทพมหานคร", 1⟩] ([c8_r1] ++ c8_r2 :: [c8_r3])).2.2
      [c8_r1] [c8_r3] c8_r2 (by decide)
      (by
        intro r2 hr2 _
        rcases List.mem_singleton.mp hr2 with rfl
        decide)⟩

-- ── Aggregator additivity (C6) ────────────────────────────────────────────

/-- The additive fields of the `compute_region_stats` loop state are the
starting values plus list functions of the resolved items. -/
lemma region_stats_foldl_fields (dl : String → Option ConsDiffData) :
    ∀ (l : List EnrichedFeature) (acc : RegionStatsAcc),
      (l.foldl (region_stats_step dl) acc).total =
        acc.total + (region_items dl l).length ∧
      (l.foldl (region_stats_step dl) acc).mismatch_count =
        acc.mismatch_count +
          ((region_items dl l).filter (fun p => p.2.diff_count ≠ 0)).length ∧
      (l.foldl (region_stats_step dl) acc).sum_abs_count_total =
        acc.sum_abs_count_total +
          ((region_items dl l).map (fun p => |p.2.diff_count|)).sum ∧
      (l.foldl (region_stats_step dl) acc).sum_abs_percent =
        acc.sum_abs_percent +
          ((region_items dl l).map (fun p => |p.2.diff_percent|)).sum ∧
      (l.foldl (region_stats_step dl) acc).total_mp_turnout =
        acc.total_mp_turnout +
          ((region_items dl l).map (fun p => p.2.mp_turn_out)).sum ∧
      (l.foldl (region_stats_step dl) acc).total_pl_turnout =
        acc.total_pl_turnout +
          ((region_items dl l).map (fun p => p.2.party_list_turn_out)).sum := by
  intro l
  induction l with
  | nil => intro acc; simp [region_items]
  | cons f fs ih =>
      intro acc
      rcases h : region_resolve dl f with _ | ⟨cons_id, diff⟩
      · have hstep : region_stats_step dl acc f = acc := by
          simp [region_stats_step, h]
        simpa [region_items, List.filterMap_cons, h, hstep] using ih acc
      · have hitems : region_items dl (f :: fs) =
            (cons_id, diff) :: region_items dl fs := by
          simp [region_items, List.filterMap_cons, h]
        obtain ⟨h1, h2, h3, h4, h5, h6⟩ := ih (region_stats_step dl acc f)
        rw [List.foldl_cons] at *
        refine ⟨?_, ?_, ?_, ?_, ?_, ?_⟩
        · rw [h1, hitems]
          simp [region_stats_step, h]
          omega
        · rw [h2, hitems]
          by_cases hz : diff.diff_count = 0
          · simp [region_stats_step, h, hz]
          · simp [region_stats_step, h, hz]
            omega
        · rw [h3, hitems]
          simp [region_stats_step, h]
          ring
        · rw [h4, hitems]
          simp [region_stats_step, h]
          ring
        · rw [h5, hitems]
          simp [region_stats_step, h]
          ring
        · rw [h6, hitems]
          simp [region_stats_step, h]
          ring

/-- The additive fields of `compute_region_stats` as list functions of the
resolved items. -/
lemma compute_region_stats_fields (dl : String → Option ConsDiffData)
    (l : List EnrichedFeature) :
    (compute_region_stats l dl).total = (region_items dl l).length ∧
    (compute_region_stats l dl).mismatch_count =
      ((region_items dl l).filter (fun p => p.2.diff_count ≠ 0)).length ∧
    (compute_region_stats l dl).sum_abs_count =
      ((region_items dl l).map (fun p => |p.2.diff_count|)).sum ∧
    (compute_region_stats l dl).sum_abs_percent =
      ((region_items dl l).map (fun p => |p.2.diff_percent|)).sum ∧
    (compute_region_stats l dl).total_mp_turnout =
      ((region_items dl l).map (fun p => p.2.mp_turn_out)).sum ∧
    (compute_region_stats l dl).total_pl_turnout =
      ((region_items dl l).map (fun p => p.2.party_list_turn_out)).sum := by
  obtain ⟨h1, h2, h3, h4, h5, h6⟩ :=
    region_stats_foldl_fields dl l region_stats_init
  exact ⟨by simpa [compute_region_stats, region_stats_init] using h1,
    by simpa [compute_region_stats, region_stats_init] using h2,
    by simpa [compute_region_stats, region_stats_init] using h3,
    by simpa [compute_region_stats, region_stats_init] using h4,
    by simpa [compute_region_stats, region_stats_init] using h5,
    by simpa [compute_region_stats, region_stats_init] using h6⟩

/-- C6: the group-stats aggregator is additive over partitions — for every
pair of disjoint feature lists `P1`, `P2` whose union (as a partition, i.e.
up to reordering) is the full feature list, the unit counts, mismatch
counts, absolute-count sums, absolute-percent sums and the two summed
turnouts of the parts add up to those of the whole. -/
theorem compute_region_stats_additive (dl : String → Option ConsDiffData)
    (p1 p2 full : List EnrichedFeature) (hpart : full.Perm (p1 ++ p2)) :
    (compute_region_stats p1 dl).total + (compute_region_stats p2 dl).total =
      (compute_region_stats full dl).total ∧
    (compute_region_stats p1 dl).mismatch_count +
        (compute_region_stats p2 dl).mismatch_count =
      (compute_region_stats full dl).mismatch_count ∧
    (compute_region_stats p1 dl).sum_abs_count +
        (compute_region_stats p2 dl).sum_abs_count =
      (compute_region_stats full dl).sum_abs_count ∧
    (compute_region_stats p1 dl).sum_abs_percent +
        (compute_region_stats p2 dl).sum_abs_percent =
      (compute_region_stats full dl).sum_abs_percent ∧
    (compute_region_stats p1 dl).total_mp_turnout +
        (compute_region_stats p2 dl).total_mp_turnout =
      (compute_region_stats full dl).total_mp_turnout ∧
    (compute_region_stats p1 dl).total_pl_turnout +
        (compute_region_stats p2 dl).total_pl_turnout =
      (compute_region_stats full dl).total_pl_turnout := by
  obtain ⟨a1, a2, a3, a4, a5, a6⟩ := compute_region_stats_fields dl p1
  obtain ⟨b1, b2, b3, b4, b5, b6⟩ := compute_region_stats_fields dl p2
  obtain ⟨c1, c2, c3, c4, c5, c6⟩ := compute_region_stats_fields dl full
  have hperm : (region_items dl full).Perm
      (region_items dl p1 ++ region_items dl p2) := by
    have := hpart.filterMap (region_resolve dl)
    simpa [region_items, List.filterMap_append] using this
  refine ⟨?_, ?_, ?_, ?_, ?_, ?_⟩
  · rw [a1, b1, c1, hperm.length_eq, List.length_append]
  · rw [a2, b2, c2, (hperm.filter _).length_eq, List.filter_append,
      List.length_append]
  · rw [a3, b3, c3, (hperm.map _).sum_eq, List.map_append, List.sum_append]
  · rw [a4, b4, c4, (hperm.map _).sum_eq, List.map_append, List.sum_append]
  · rw [a5, b5, c5, (hperm.map _).sum_eq, List.map_append, List.sum_append]
  · rw [a6, b6, c6, (hperm.map _).sum_eq, List.map_append, List.sum_append]

/-- Enriched feature used by the C6 witness, carrying diff key `A_1`. -/
def c6_f1 : EnrichedFeature :=
  { p_name := "ก", cons_no := 1,
    cons_data := some
      { cons_id := "A_1", cons_no := 1, prov_id := "PA", prov_name_th := "ก",
        prov_name_en := "A", zone := [], vote_stations := 10,
        registered_voters := 1000 },
    label := "ก เขต 1" }

/-- Enriched feature used by the C6 witness, carrying diff key `A_2`. -/
def c6_f2 : EnrichedFeature :=
  { p_name := "ก", cons_no := 2,
    cons_data := some
      { cons_id := "A_2", cons_no := 2, prov_id := "PA", prov_name_th := "ก",
        prov_name_en := "A", zone := [], vote_stations := 12,
        registered_voters := 900 },
    label := "ก เขต 2" }

/-- Concrete diff lookup for the C6 witness: `+10` on `A_1`, `−10` on
`A_2`. -/
def c6_lookup : String → Option ConsDiffData := fun k =>
  if k = "A_1" then
    some { mp_turn_out := 1000, mp_percent_turn_out := 70,
           party_list_turn_out := 990, party_list_percent_turn_out := 69,
           diff_count := 10, diff_percent := 1 }
  else if k = "A_2" then
    some { mp_turn_out := 990, mp_percent_turn_out := 68,
           party_list_turn_out := 1000, party_list_percent_turn_out := 69,
           diff_count := -10, diff_percent := -1 }
  else none

/-- Witness for C6: splitting the two-feature set into its singletons adds
up to the whole on every aggregated field. -/
theorem compute_region_stats_additive_witness :
    ([c6_f1, c6_f2].Perm ([c6_f1] ++ [c6_f2])) ∧
    (compute_region_stats [c6_f1] c6_lookup).total +
        (compute_region_stats [c6_f2] c6_lookup).total =
      (compute_region_stats [c6_f1, c6_f2] c6_lookup).total ∧
    (compute_region_stats [c6_f1] c6_lookup).mismatch_count +
        (compute_region_stats [c6_f2] c6_lookup).mismatch_count =
      (compute_region_stats [c6_f1, c6_f2] c6_lookup).mismatch_count ∧
    (compute_region_stats [c6_f1] c6_lookup).sum_abs_count +
        (compute_region_stats [c6_f2] c6_lookup).sum_abs_count =
      (compute_region_stats [c6_f1, c6_f2] c6_lookup).sum_abs_count ∧
    (compute_region_stats [c6_f1] c6_lookup).sum_abs_percent +
        (compute_region_stats [c6_f2] c6_lookup).sum_abs_percent =
      (compute_region_stats [c6_f1, c6_f2] c6_lookup).sum_abs_percent ∧
    (compute_region_stats [c6_f1] c6_lookup).total_mp_turnout +
        (compute_region_stats [c6_f2] c6_lookup).total_mp_turnout =
      (compute_region_stats [c6_f1, c6_f2] c6_lookup).total_mp_turnout ∧
    (compute_region_stats [c6_f1] c6_lookup).total_pl_turnout +
        (compute_region_stats [c6_f2] c6_lookup).total_pl_turnout =
      (compute_region_stats [c6_f1, c6_f2] c6_lookup).total_pl_turnout :=
  ⟨List.Perm.refl _,
    compute_region_stats_additive c6_lookup [c6_f1] [c6_f2] [c6_f1, c6_f2]
      (List.Perm.refl _)⟩

-- ── Party-list top-3 (C9) ─────────────────────────────────────────────────

/-- The positive-vote parties of a unit that the top-3 selection passes
over (everything after the first three of the sorted list). -/
def top3_rest (l : List RawConsPartyResult) : List RawConsPartyResult :=
  ((l.filter (fun rp => 0 < rp.party_list_vote)).insertionSort pl_vote_ge).drop 3

/-- C9: every party-list entry holds at most 3 top parties, each with
strictly positive votes, ordered by party-list votes descending; and they
are the top-voted positive-vote parties of the originating unit — together
with the passed-over rest they are a permutation of all its positive-vote
parties, and each selected entry's votes dominate every passed-over
party's. -/
theorem build_party_list_lookup_top3 (stats : RawStatsCons)
    (parties : List RawPartyOverview) (k : String) (v : ConsPartyListData)
    (h : (k, v) ∈ build_party_list_lookup stats parties) :
    v.top_parties.length ≤ 3 ∧
    (∀ e ∈ v.top_parties, 0 < e.votes) ∧
    v.top_parties.Pairwise (fun a b => b.votes ≤ a.votes) ∧
    ∃ prov cons l, prov ∈ stats.result_province ∧
      cons ∈ prov.constituencies ∧ cons.result_party = some l ∧
      k = cons.cons_id ∧
      v.top_parties =
        (top3_selected l).map (resolve_party_entry (party_map parties)) ∧
      (top3_selected l ++ top3_rest l).Perm
        (l.filter (fun rp => 0 < rp.party_list_vote)) ∧
      (∀ e ∈ top3_selected l, ∀ p ∈ top3_rest l,
        p.party_list_vote ≤ e.party_list_vote) := by
  unfold build_party_list_lookup at h
  obtain ⟨prov, hp, hmem⟩ := List.mem_flatMap.mp h
  obtain ⟨cons, hc, heq⟩ := List.mem_filterMap.mp hmem
  by_cases hsum : is_summary_id cons.cons_id
  · simp [hsum] at heq
  rcases hrp : cons.result_party with _ | l
  · simp [hsum, hrp] at heq
  rcases l with _ | ⟨a, as⟩
  · simp [hsum, hrp] at heq
  simp only [hsum, if_false, hrp, Bool.false_eq_true] at heq
  obtain ⟨hk, hv⟩ := Prod.mk.injEq .. ▸ Option.some.injEq .. ▸ heq
  set l := a :: as with hl
  have hsorted : ((l.filter (fun rp => 0 < rp.party_list_vote)).insertionSort
      pl_vote_ge).Pairwise pl_vote_ge :=
    List.sorted_insertionSort pl_vote_ge _
  have hperm : ((l.filter (fun rp => 0 < rp.party_list_vote)).insertionSort
      pl_vote_ge).Perm (l.filter (fun rp => 0 < rp.party_list_vote)) :=
    List.perm_insertionSort pl_vote_ge _
  have htop : v.top_parties =
      (top3_selected l).map (resolve_party_entry (party_map parties)) := by
    rw [← hv]
  refine ⟨?_, ?_, ?_, prov, cons, l, hp, hc, hrp, hk.symm, htop, ?_, ?_⟩
  · rw [htop, List.length_map, top3_selected, List.length_take]
    omega
  · intro e he
    rw [htop] at he
    obtain ⟨rp, hrp', rfl⟩ := List.mem_map.mp he
    have h1 : rp ∈ (l.filter (fun rp => 0 < rp.party_list_vote)).insertionSort
        pl_vote_ge := List.mem_of_mem_take hrp'
    have h2 : rp ∈ l.filter (fun rp => 0 < rp.party_list_vote) :=
      hperm.mem_iff.mp h1
    have h3 := (List.mem_filter.mp h2).2
    exact of_decide_eq_true h3
  · rw [htop]
    refine List.Pairwise.map _ ?_ (hsorted.sublist (List.take_sublist 3 _))
    intro a' b' hab
    exact hab
  · rw [← List.take_append_drop 3
      ((l.filter (fun rp => 0 < rp.party_list_vote)).insertionSort pl_vote_ge)]
      at hperm
    exact hperm
  · intro e he p hpr
    rw [← List.take_append_drop 3
      ((l.filter (fun rp => 0 < rp.party_list_vote)).insertionSort pl_vote_ge)]
      at hsorted
    exact (List.pairwise_append.mp hsorted).2.2 e he p hpr

/-- Party directory used by the C9 witness. -/
def c9_parties : List RawPartyOverview :=
  [⟨1, "AA", "#f00"⟩, ⟨2, "BB", "#0f0"⟩, ⟨3, "CC", "#00f"⟩]

/-- Unit used by the C9 witness: four parties with votes 5, 9, 0 and 2. -/
def c9_cons : RawStatsConstituency :=
  { cons_id := "B_1", turn_out := some 1000, percent_turn_out := none,
    valid_votes := none, invalid_votes := none, blank_votes := none,
    party_list_turn_out := some 980, party_list_percent_turn_out := none,
    party_list_valid_votes := none, party_list_invalid_votes := none,
    party_list_blank_votes := none, counted_vote_stations := none,
    percent_count := none, pause_report := none, candidates := [],
    result_party := some [⟨1, 5, 25⟩, ⟨2, 9, 45⟩, ⟨3, 0, 0⟩, ⟨4, 2, 10⟩] }

/-- Single-province turnout feed holding only `c9_cons`. -/
def c9_stats : RawStatsCons := ⟨[⟨"P1", [c9_cons]⟩]⟩

/-- The party-list entry the pipeline emits for `c9_cons`: the three
positive-vote parties descending (9, 5, 2); the zero-vote party dropped;
party id 4 unknown to the directory, hence the sentinel name/color. -/
def c9_entry : ConsPartyListData :=
  { turn_out := some 980,
    top_parties :=
      [⟨"BB", "#0f0", 9, 45⟩, ⟨"AA", "#f00", 5, 25⟩,
        ⟨"ไม่ทราบพรรค", "#666", 2, 10⟩] }

/-- Witness for C9: on the concrete unit the entry keeps the three
positive-vote parties in descending order, dropping the zero-vote party. -/
theorem build_party_list_lookup_top3_witness :
    ("B_1", c9_entry) ∈ build_party_list_lookup c9_stats c9_parties ∧
    c9_entry.top_parties.length ≤ 3 ∧
    (∀ e ∈ c9_entry.top_parties, 0 < e.votes) ∧
    c9_entry.top_parties.Pairwise (fun a b => b.votes ≤ a.votes) := by
  have hmem : ("B_1", c9_entry) ∈ build_party_list_lookup c9_stats c9_parties := by
    decide
  have h := build_party_list_lookup_top3 c9_stats c9_parties _ _ hmem
  exact ⟨hmem, h.1, h.2.1, h.2.2.1⟩

-- ── Diff-vs-party-list presence (C10) ─────────────────────────────────────

/-- C10: a non-summary unit of the turnout feed always gets a diff entry;
it gets no party-list entry at all when every feed row with its id has a
missing or empty `result_party`; and when its `result_party` is non-empty
but every party has zero party-list votes, the party-list lookup holds an
entry for it with an empty `top_parties` list and its party-list turnout
attached. -/
theorem diff_always_party_list_conditional (stats : RawStatsCons)
    (parties : List RawPartyOverview) (prov : RawStatsProvince)
    (cons : RawStatsConstituency) (hp : prov ∈ stats.result_province)
    (hc : cons ∈ prov.constituencies)
    (hs : is_summary_id cons.cons_id = false) :
    (cons.cons_id, diff_record cons) ∈ build_diff_lookup stats ∧
    ((∀ prov' ∈ stats.result_province, ∀ cons' ∈ prov'.constituencies,
        cons'.cons_id = cons.cons_id →
        cons'.result_party = none ∨ cons'.result_party = some []) →
      ∀ v, (cons.cons_id, v) ∉ build_party_list_lookup stats parties) ∧
    (∀ l, cons.result_party = some l → l ≠ [] →
      (∀ rp ∈ l, rp.party_list_vote = 0) →
      (cons.cons_id,
        ({ turn_out := cons.party_list_turn_out, top_parties := [] } :
          ConsPartyListData)) ∈ build_party_list_lookup stats parties) := by
  refine ⟨?_, ?_, ?_⟩
  · unfold build_diff_lookup
    refine List.mem_flatMap.mpr ⟨prov, hp, List.mem_filterMap.mpr
      ⟨cons, hc, ?_⟩⟩
    simp [hs]
  · intro hall v hv
    unfold build_party_list_lookup at hv
    obtain ⟨prov', hp', hmem⟩ := List.mem_flatMap.mp hv
    obtain ⟨cons', hc', heq⟩ := List.mem_filterMap.mp hmem
    by_cases hsum : is_summary_id cons'.cons_id
    · simp [hsum] at heq
    rcases hrp : cons'.result_party with _ | l
    · simp [hsum, hrp] at heq
    rcases l with _ | ⟨a, as⟩
    · simp [hsum, hrp] at heq
    simp only [hsum, if_false, hrp, Bool.false_eq_true] at heq
    obtain ⟨hk, -⟩ := Prod.mk.injEq .. ▸ Option.some.injEq .. ▸ heq
    rcases hall prov' hp' cons' hc' hk with hnone | hnil
    · rw [hrp] at hnone; cases hnone
    · rw [hrp] at hnil
      cases Option.some.injEq .. ▸ hnil
  · intro l hrp hne hzero
    have hfilter : l.filter (fun rp => 0 < rp.party_list_vote) = [] := by
      rw [List.filter_eq_nil_iff]
      intro rp hrpmem
      have := hzero rp hrpmem
      simp [this]
    have htop : top3_selected l = [] := by
      unfold top3_selected
      rw [hfilter]
      rfl
    unfold build_party_list_lookup
    refine List.mem_flatMap.mpr ⟨prov, hp, List.mem_filterMap.mpr
      ⟨cons, hc, ?_⟩⟩
    rcases l with _ | ⟨a, as⟩
    · exact absurd rfl hne
    simp only [hs, if_false, hrp, Bool.false_eq_true]
    rw [htop]
    rfl

/-- Unit used by the C10 witness: a non-empty `result_party` whose two
parties both have zero party-list votes. -/
def c10_cons : RawStatsConstituency :=
  { cons_id := "D_1", turn_out := some 400, percent_turn_out := some 40,
    valid_votes := none, invalid_votes := none, blank_votes := none,
    party_list_turn_out := some 390, party_list_percent_turn_out := some 39,
    party_list_valid_votes := none, party_list_invalid_votes := none,
    party_list_blank_votes := none, counted_vote_stations := none,
    percent_count := none, pause_report := none, candidates := [],
    result_party := some [⟨1, 0, 0⟩, ⟨2, 0, 0⟩] }

/-- Unit used by the C10 witness with `result_party` missing entirely. -/
def c10_cons_none : RawStatsConstituency :=
  { cons_id := "D_2", turn_out := some 300, percent_turn_out := some 30,
    valid_votes := none, invalid_votes := none, blank_votes := none,
    party_list_turn_out := some 290, party_list_percent_turn_out := some 29,
    party_list_valid_votes := none, party_list_invalid_votes := none,
    party_list_blank_votes := none, counted_vote_stations := none,
    percent_count := none, pause_report := none, candidates := [],
    result_party := none }

/-- Two-unit feed for the C10 witness. -/
def c10_stats : RawStatsCons := ⟨[⟨"P1", [c10_cons, c10_cons_none]⟩]⟩

/-- Witness for C10: in the concrete feed, the all-zero-votes unit `D_1`
appears in the party-list lookup with an empty top list and its turnout,
while both units get diff entries; applying the theorem to `D_2` (whose
`result_party` is missing) shows it gets no party-list entry. -/
theorem diff_always_party_list_conditional_witness :
    ("D_1", diff_record c10_cons) ∈ build_diff_lookup c10_stats ∧
    ("D_1", ({ turn_out := some 390, top_parties := [] } : ConsPartyListData))
      ∈ build_party_list_lookup c10_stats [] ∧
    ("D_2", diff_record c10_cons_none) ∈ build_diff_lookup c10_stats ∧
    (∀ v, ("D_2", v) ∉ build_party_list_lookup c10_stats []) := by
  have h1 := diff_always_party_list_conditional c10_stats []
    ⟨"P1", [c10_cons, c10_cons_none]⟩ c10_cons (List.mem_singleton.mpr rfl)
    (List.mem_cons_self _ _) (by decide)
  have h2 := diff_always_party_list_conditional c10_stats []
    ⟨"P1", [c10_cons, c10_cons_none]⟩ c10_cons_none
    (List.mem_singleton.mpr rfl)
    (List.mem_cons_of_mem _ (List.mem_singleton.mpr rfl)) (by decide)
  refine ⟨h1.1, ?_, h2.1, ?_⟩
  · have := h1.2.2 [⟨1, 0, 0⟩, ⟨2, 0, 0⟩] (by decide) (by decide)
      (by decide)
    exact this
  · refine h2.2.1 ?_
    intro prov' hp' cons' hc' hid
    rcases List.mem_singleton.mp hp' with rfl
    rcases List.mem_cons.mp hc' with rfl | hc''
    · exact absurd hid (by decide)
    rcases List.mem_singleton.mp hc'' with rfl
    exact Or.inl rfl

-- ── Z-score normalizer (C2) ───────────────────────────────────────────────

/-- Modelled from the spec: the claim scores units against the *population*
standard deviation — the square root of `Σ(x − x̄)²/n` — of the signed diff
counts; this population variance is the claimed normalizer, to be compared
with the `d3.deviation` (sample) normalizer the code uses. -/
def population_variance (l : List ℚ) : ℚ :=
  if l.length = 0 then 0
  else (l.map (fun x => (x - l.sum / l.length) ^ 2)).sum / l.length

/-- For a positive variance, the squared comparison decides the real-valued
z-score test `|d| / √v > 2`. -/
lemma four_mul_lt_sq_iff_real (v d : ℚ) (hv : 0 < v) :
    4 * v < d ^ 2 ↔ 2 < |(d : ℝ)| / Real.sqrt (v : ℝ) := by
  have hv' : (0 : ℝ) < (v : ℝ) := by exact_mod_cast hv
  have hs : 0 < Real.sqrt (v : ℝ) := Real.sqrt_pos.mpr hv'
  have hsq : Real.sqrt (v : ℝ) ^ 2 = (v : ℝ) := Real.sq_sqrt hv'.le
  rw [lt_div_iff₀ hs]
  have hcast : (4 : ℚ) * v < d ^ 2 ↔ (4 : ℝ) * (v : ℝ) < (d : ℝ) ^ 2 := by
    constructor
    · intro h; exact_mod_cast h
    · intro h; exact_mod_cast h
  rw [hcast]
  constructor
  · intro h
    nlinarith [sq_abs (d : ℝ), abs_nonneg (d : ℝ), Real.sqrt_nonneg (v : ℝ)]
  · intro h
    nlinarith [sq_abs (d : ℝ), abs_nonneg (d : ℝ), Real.sqrt_nonneg (v : ℝ)]

/-- The code's flag decides exactly the real-valued test against the
`d3.deviation` (square root of the sample variance) normalizer, whenever
that variance is positive. -/
lemma zscore_anomalous_iff_real (items : List PartyConsItem) (x v : ℚ)
    (hv : d3_variance (items.map (·.diff_count)) = some v) (hvpos : 0 < v) :
    (zscore_anomalous items x = true ↔
      2 < |(x : ℝ) - (global_mean items : ℝ)| / Real.sqrt (v : ℝ)) := by
  unfold zscore_anomalous
  rw [hv]
  simp only [hvpos.ne', if_false, decide_eq_true_eq]
  rw [four_mul_lt_sq_iff_real v (x - global_mean items) hvpos]
  push_cast
  rfl

/-- Item used by the C2 inputs: only the diff count and the party name
matter to the z-score test. -/
def c2_item (d : ℚ) : PartyConsItem :=
  { cons_id := "", prov_name_th := "", cons_no := 0, diff_count := d,
    diff_percent := 0, mp_turn_out := 0, pl_turn_out := 0,
    candidate_name := "", party_name := "A", party_color := "#fff",
    region := "central" }

/-- Population of the C2 counterexample and witness: six units with signed
diff counts 0, 0, 0, 0, 3 and 10. -/
def c2_items : List PartyConsItem :=
  [c2_item 0, c2_item 0, c2_item 0, c2_item 0, c2_item 3, c2_item 10]

/-- The global mean of `c2_items` is 13/6. -/
lemma c2_mean : global_mean c2_items = 13 / 6 := by
  norm_num [global_mean, d3_mean, c2_items, c2_item]

/-- The code's sample variance of `c2_items` is 97/6. -/
lemma c2_sample_variance :
    d3_variance (c2_items.map (·.diff_count)) = some (97 / 6) := by
  norm_num [d3_variance, c2_items, c2_item]

/-- The claim's population variance of `c2_items` is 485/36. -/
lemma c2_population_variance :
    population_variance (c2_items.map (·.diff_count)) = 485 / 36 := by
  norm_num [population_variance, c2_items, c2_item]

/-- Counterexample for C2: in the six-unit population with diff counts
0, 0, 0, 0, 3, 10, the unit with diff count 10 exceeds two *population*
standard deviations from the global mean (the claim's criterion), yet the
code — whose `d3.deviation` is the *sample* standard deviation — does not
flag it, so the claimed "flagged exactly when `|diff − mean|/stddev > 2`
with the population stddev" is false. -/
theorem zscore_population_claim_counterexample :
    c2_item 10 ∈ c2_items ∧
    0 < population_variance (c2_items.map (·.diff_count)) ∧
    2 < |((10 : ℚ) : ℝ) - (global_mean c2_items : ℝ)| /
      Real.sqrt ((population_variance (c2_items.map (·.diff_count)) : ℚ) : ℝ) ∧
    zscore_anomalous c2_items 10 = false := by
  refine ⟨by decide, ?_, ?_, ?_⟩
  · rw [c2_population_variance]; norm_num
  · rw [c2_population_variance, c2_mean]
    have h := (four_mul_lt_sq_iff_real (485 / 36) (10 - 13 / 6)
      (by norm_num)).mp (by norm_num)
    calc (2 : ℝ) < |((10 - 13 / 6 : ℚ) : ℝ)| /
          Real.sqrt ((485 / 36 : ℚ) : ℝ) := h
      _ = |((10 : ℚ) : ℝ) - ((13 / 6 : ℚ) : ℝ)| /
          Real.sqrt ((485 / 36 : ℚ) : ℝ) := by push_cast; ring_nf
  · unfold zscore_anomalous
    rw [c2_sample_variance]
    simp only [show (97 / 6 : ℚ) ≠ 0 by norm_num, if_false,
      decide_eq_false_iff_not]
    rw [c2_mean]
    norm_num

/-- C2 (amended): the global z-score test computes the mean and the
*sample* standard deviation (`d3.deviation`: the square root of
`Σ(x − x̄)²/(n − 1)`, defaulting to 1 below two units) of signed
`diff_count` across all units; whenever that sample variance `v` is
positive, a unit is flagged anomalous exactly when
`|diff_count − mean| / √v > 2`; and per-party anomaly counts are taken
with this same global test — each party's `anomaly_count` is the number of
its own units flagged by the *global* flag, not a per-party one. -/
theorem zscore_sample_deviation_amended (items : List PartyConsItem)
    (x v : ℚ) (hv : d3_variance (items.map (·.diff_count)) = some v)
    (hvpos : 0 < v) :
    (zscore_anomalous items x = true ↔
      2 < |(x : ℝ) - (global_mean items : ℝ)| / Real.sqrt (v : ℝ)) ∧
    v = ((items.map (·.diff_count)).map
        (fun d => (d - (items.map (·.diff_count)).sum / (items.length : ℚ))
          ^ 2)).sum / ((items.length : ℚ) - 1) ∧
    (∀ ps ∈ party_stats items, ps.anomaly_count =
      ((party_group items ps.party_name).filter
        (fun i => zscore_anomalous items i.diff_count)).length) := by
  refine ⟨zscore_anomalous_iff_real items x v hv hvpos, ?_, ?_⟩
  · unfold d3_variance at hv
    split at hv
    · obtain hv' := Option.some.injEq .. ▸ hv
      rw [← hv']
      simp [List.length_map]
    · cases hv
  · intro ps hps
    have hmem : ps ∈ (party_keys items).map (party_stats_of items) :=
      (List.perm_insertionSort stats_desc _).mem_iff.mp hps
    obtain ⟨p, _, rfl⟩ := List.mem_map.mp hmem
    simp [party_stats_of]

/-- Witness for C2 (amended): the theorem applied at the concrete
population `c2_items`, `x = 10` and sample variance `97/6`. -/
theorem zscore_sample_deviation_amended_witness :
    d3_variance (c2_items.map (·.diff_count)) = some (97 / 6) ∧
    (0 : ℚ) < 97 / 6 ∧
    ((zscore_anomalous c2_items 10 = true ↔
      2 < |((10 : ℚ) : ℝ) - (global_mean c2_items : ℝ)| /
        Real.sqrt ((97 / 6 : ℚ) : ℝ)) ∧
    (97 / 6 : ℚ) = ((c2_items.map (·.diff_count)).map
        (fun d => (d - (c2_items.map (·.diff_count)).sum /
          (c2_items.length : ℚ)) ^ 2)).sum / ((c2_items.length : ℚ) - 1) ∧
    (∀ ps ∈ party_stats c2_items, ps.anomaly_count =
      ((party_group c2_items ps.party_name).filter
        (fun i => zscore_anomalous c2_items i.diff_count)).length)) :=
  ⟨c2_sample_variance, by norm_num,
    zscore_sample_deviation_amended c2_items 10 (97 / 6) c2_sample_variance
      (by norm_num)⟩

end Vote69
